import Mathlib

/-!
Verification of `gwpy/timeseries/io/losc.py`: the LOSC remote data
acquisition / assembly layer (`fetch_losc_data`, `_fetch_losc_data_file`)
and the two HDF5 decoders (`read_losc_hdf5`, `read_losc_hdf5_state`).

The Python module is embedded shallowly: GPS times are rationals, byte
payloads are lists, external collaborators (the `gwosc` locator, the
HDF5 container layer, `file_segment`, the series arithmetic of
`gwpy.types`) are either function parameters or definitions modelled
from the specification (each such definition says so in its doc
comment).  Everything that the claims decide on — the control flow of
the two fetch functions and of the two decoders — is translated
directly from the source.
-/

namespace Losc

/-- A Python exception, reduced to its class name and its message. -/
structure Exc where
  kind : String
  msg : String
deriving DecidableEq

/-- A GPS time segment `[l, r)` with rational endpoints. -/
structure Seg where
  l : ℚ
  r : ℚ
deriving DecidableEq

/-- Modelled from the spec: interval intersection "with another interval,
yielding an interval (possibly empty)" (spec section 3, Time Interval).
The real `gwpy.segments.Segment` operator is outside `src/`. -/
def Seg.inter (s t : Seg) : Seg := ⟨max s.l t.l, min s.r t.r⟩

/-- A segment `[l, r)` is empty when `r ≤ l`. -/
def Seg.isEmpty (s : Seg) : Bool := decide (s.r ≤ s.l)

/- ### String utilities mirroring the Python operations used by the module -/

/-- `isPre n h` : the list `n` is an initial run of `h`. -/
def isPre : List Char → List Char → Bool
  | [], _ => true
  | _ :: _, [] => false
  | a :: as, b :: bs => a == b && isPre as bs

/-- `hasSub n h` : the list `n` occurs contiguously inside `h`. -/
def hasSub (n : List Char) : List Char → Bool
  | [] => isPre n []
  | c :: cs => isPre n (c :: cs) || hasSub n cs

/-- Python `needle in hay` on strings (substring containment). -/
def strContains (hay needle : String) : Bool := hasSub needle.toList hay.toList

/-- Python `s.endswith(suffix)`. -/
def endsW (s suffix : String) : Bool := isPre suffix.toList.reverse s.toList.reverse

/-- Python `s[:-n]` for `n` at most the length of `s`: drop the last `n`
characters. -/
def dropRightChars (s : String) (n : Nat) : String :=
  String.mk (s.toList.take (s.toList.length - n))

/-- The characters after the last `'/'` (the whole list when there is no
`'/'`), i.e. the POSIX basename of a path. -/
def basenameChars (cs : List Char) : List Char :=
  cs.foldl (fun acc c => if c = '/' then [] else acc ++ [c]) []

/-- The extension part of CPython `os.path.splitext` applied to a basename:
everything from the last dot on, provided some character strictly before
that dot is not itself a dot (so `.bashrc` has no extension). -/
def splitextExtChars (base : List Char) : List Char :=
  let rev := base.reverse
  let pre := rev.takeWhile (fun c => c != '.')
  if pre.length = rev.length then []
  else
    let rest := rev.drop (pre.length + 1)
    if rest.any (fun c => c != '.') then '.' :: pre.reverse else []

/-- Python `os.path.splitext(p)[-1]` for POSIX paths / URLs. -/
def splitextExt (p : String) : String :=
  String.mk (splitextExtChars (basenameChars p.toList))

/-- The extension match of `_fetch_losc_data_file`:
`splitext(url[:-3])[-1]` when the URL ends in `.gz`, else
`splitext(url)[-1]` — i.e. at most one trailing `.gz` is stripped. -/
def fileExt (url : String) : String :=
  if endsW url ".gz" then splitextExt (dropRightChars url 3) else splitextExt url

/-- Python `path.rsplit('/', 1)[1]` as used for the dataset name in
`read_losc_hdf5`: the part after the last `'/'`; an `IndexError` escapes
when the path has no `'/'` (the single-element list has no index 1). -/
def rsplitLast (path : String) : Except Exc String :=
  if path.toList.contains '/' then Except.ok (String.mk (basenameChars path.toList))
  else Except.error ⟨"IndexError", "list index out of range"⟩

/-- Python `'%r' % s` for a URL string: single quotes around the text.
(Model for strings without quote or escape characters, which covers every
LOSC URL.) -/
def pyRepr (s : String) : String := "'" ++ s ++ "'"

/-- Splitting a character list on whitespace, discarding empty pieces;
`acc` holds the characters of the current word in reverse. -/
def splitWsChars (acc : List Char) : List Char → List String
  | [] => if acc.isEmpty then [] else [String.mk acc.reverse]
  | c :: cs =>
      if c.isWhitespace then
        if acc.isEmpty then splitWsChars [] cs
        else String.mk acc.reverse :: splitWsChars [] cs
      else splitWsChars (c :: acc) cs

/-- Python `s.split()` (split on whitespace, discarding empty pieces). -/
def pySplitWs (s : String) : List String := splitWsChars [] s.toList

/-- Python `t.split(':', 1)` destructured into exactly two parts, as in
`a, b = bit.split(':', 1)`: `none` when `t` has no `':'` (the two-name
unpacking then raises `ValueError`). -/
def splitColon1 (t : String) : Option (String × String) :=
  let cs := t.toList
  let before := cs.takeWhile (fun c => c != ':')
  if before.length = cs.length then none
  else some (String.mk before, String.mk (cs.drop (before.length + 1)))

/-- Python `int(s)` on a whitespace-free token: an optional sign followed
by at least one decimal digit, else `none` (a `ValueError` in Python). -/
def pyInt (s : String) : Option Int :=
  let cs := s.toList
  let signAndDigits : Int × List Char :=
    match cs with
    | '-' :: rest => (-1, rest)
    | '+' :: rest => (1, rest)
    | _ => (1, cs)
  let ds := signAndDigits.2
  if !ds.isEmpty && ds.all Char.isDigit then
    some (signAndDigits.1 *
      (ds.foldl (fun n c => n * 10 + (c.toNat - '0'.toNat)) (0 : Nat) : Nat))
  else none

end Losc

deriving instance DecidableEq for Except

namespace Losc

/- ### Single-file fetch (`_fetch_losc_data_file`) -/

/-- The object returned by `cls.read` on one downloaded file (the decoding
itself is external to the module): only the pieces the module's
post-processing inspects are modelled — whether the object is a
`StateVector`, its unit string, its bit table, and its samples. -/
structure RawSeries where
  isSV : Bool
  unit : String
  bits : List (Int × String)
  data : List ℚ
deriving DecidableEq

/-- Python dict assignment `d[k] = v` on an insertion-ordered dict held as
an association list: overwrite in place, else append. -/
def dictInsert (d : List (Int × String)) (k : Int) (v : String) :
    List (Int × String) :=
  if d.any (fun p => p.1 == k) then d.map (fun p => if p.1 == k then (k, v) else p)
  else d ++ [(k, v)]

/-- The bit-table parse of the gwf post-processing loop:
`for bit in str(series.unit).split(): a, b = bit.split(':', 1); bits[int(a)] = b`.
`none` when any token is malformed (missing `':'` or non-integer index),
which in Python raises the `ValueError` that the caller swallows. -/
def parseBits (unit : String) : Option (List (Int × String)) :=
  (pySplitWs unit).foldlM
    (fun d tok => do
      let ab ← splitColon1 tok
      let i ← pyInt ab.1
      pure (dictInsert d i ab.2))
    []

/-- The `kwargs.setdefault('format', ...)` dispatch of
`_fetch_losc_data_file`: an explicitly supplied format wins; otherwise the
extension (after stripping at most one `.gz`) picks `hdf5.losc`,
`ascii.losc` or `gwf`; any other extension leaves the format unset. -/
def selectFormat (url : String) (fmt : Option String) : Option String :=
  match fmt with
  | some f => some f
  | none =>
      let ext := fileExt url
      if ext = ".hdf5" then some "hdf5.losc"
      else if ext = ".txt" then some "ascii.losc"
      else if ext = ".gwf" then some "gwf"
      else none

/-- The message rewrite in the `except` branch of `_fetch_losc_data_file`:
`exc.args = ("Failed to read LOSC data from %r: %s" % (url, str(exc)),)`. -/
def wrapReadError (url : String) (e : Exc) : Exc :=
  ⟨e.kind, "Failed to read LOSC data from " ++ pyRepr url ++ ": " ++ e.msg⟩

/-- `_fetch_losc_data_file(url, ...)`: select the format, read the file
(`read` stands for `cls.read` on the downloaded byte source, which is
external), wrap any read failure with the URL, and for a gwf-decoded
`StateVector` promote the unit string into the bit table — silently
keeping the series untouched when that parse fails. -/
def _fetch_losc_data_file (url : String) (fmt : Option String)
    (read : Option String → Except Exc RawSeries) : Except Exc RawSeries :=
  match read (selectFormat url fmt) with
  | Except.error e => Except.error (wrapReadError url e)
  | Except.ok series =>
      if fileExt url = ".gwf" && series.isSV then
        match parseBits series.unit with
        | some bits => Except.ok { series with bits := bits, unit := "" }
        | none => Except.ok series
      else Except.ok series

/-- The decoders reachable from this module's format dispatch. -/
inductive Decoder
  | losc_hdf5
  | losc_hdf5_state
  | ascii_losc
  | gwf_frame
deriving DecidableEq

/-- The unified-I/O registry as this module sees it: the two `hdf5.losc`
registrations at the bottom of the file (plain series vs flag series by
target class), plus — modelled from the spec — the external `ascii.losc`
and `gwf` readers registered elsewhere. -/
def registryLookup (fmt : String) (isSV : Bool) : Option Decoder :=
  if fmt = "hdf5.losc" then
    some (if isSV then Decoder.losc_hdf5_state else Decoder.losc_hdf5)
  else if fmt = "ascii.losc" then some Decoder.ascii_losc
  else if fmt = "gwf" then some Decoder.gwf_frame
  else none


end Losc

namespace Losc

/- ### HDF5 container model and the two decoders -/

/-- An HDF5 attribute value as the module reads them: a string (unit
names) or a number (times, spacings). -/
inductive Attr
  | str (s : String)
  | num (q : ℚ)
deriving DecidableEq

/-- An HDF5 dataset payload: a float array (strain), an unsigned integer
array (`DQmask`) or an array of byte strings (`DQDescriptions`, shown
here already UTF-8 decoded). -/
inductive H5Value
  | floats (xs : List ℚ)
  | ints (xs : List Nat)
  | strs (xs : List String)
deriving DecidableEq

/-- A dataset: its array payload and its attribute map. -/
structure Dataset where
  value : H5Value
  attrs : List (String × Attr)
deriving DecidableEq

/-- Modelled from the spec: the hierarchical container maps dataset paths
to datasets (spec section 6, container access capability; the real
`gwpy.io.hdf5` helpers are outside `src/`). -/
abbrev Container := List (String × Dataset)

/-- `io_hdf5.find_dataset(handle, path)`: raises `KeyError` when absent. -/
def findDataset (f : Container) (path : String) : Except Exc Dataset :=
  match f.find? (fun p => p.1 == path) with
  | some p => Except.ok p.2
  | none => Except.error ⟨"KeyError", "no such dataset: " ++ path⟩

/-- `dataset.attrs[key]`: raises `KeyError` when the attribute is absent. -/
def getAttr (d : Dataset) (key : String) : Except Exc Attr :=
  match d.attrs.find? (fun p => p.1 == key) with
  | some p => Except.ok p.2
  | none => Except.error ⟨"KeyError", key⟩

/-- Modelled from the spec: `parse_unit` turns a unit string into a
physical unit — here its name plus its scale to SI seconds, for the time
units this archive uses (spec section 6: "string, parseable as a physical
unit"; the real parser is outside `src/`). -/
structure PhysUnit where
  name : String
  secFactor : ℚ
deriving DecidableEq

/-- Modelled from the spec: the unit parser, on the time-unit strings the
format carries; anything else is a `ValueError`. -/
def parse_unit (a : Attr) : Except Exc PhysUnit :=
  match a with
  | Attr.str "s" => Except.ok ⟨"s", 1⟩
  | Attr.str "ms" => Except.ok ⟨"ms", 1 / 1000⟩
  | Attr.str "us" => Except.ok ⟨"us", 1 / 1000000⟩
  | Attr.str u => Except.error ⟨"ValueError", u ++ " is not a recognised unit"⟩
  | Attr.num _ => Except.error ⟨"ValueError", "unit must be a string"⟩

/-- A `Quantity`: a value with a unit name. -/
structure Quantity where
  val : ℚ
  unit : String
deriving DecidableEq

/- ### Cropping (modelled from the spec) -/

/-- Each sample paired with its absolute time: first sample at `epoch`,
then one every `dx`. -/
def withTimes (epoch dx : ℚ) : List α → List (ℚ × α)
  | [] => []
  | x :: xs => (epoch, x) :: withTimes (epoch + dx) dx xs

/-- The sample time `t` lies strictly before an optional lower crop bound. -/
def belowLower (a : Option ℚ) (t : ℚ) : Bool :=
  match a with
  | none => false
  | some q => decide (t < q)

/-- The sample time `t` lies strictly before an optional upper crop bound
(`none` meaning no bound). -/
def withinUpper (b : Option ℚ) (t : ℚ) : Bool :=
  match b with
  | none => true
  | some q => decide (t < q)

/-- Modelled from the spec: cropping keeps the samples whose times lie in
the intersection of `[start, end)` with the series' own span (spec
section 4.1; the real `Series.crop` is outside `src/`). -/
def cropPairs (a b : Option ℚ) (ps : List (ℚ × α)) : List (ℚ × α) :=
  (ps.dropWhile (fun p => belowLower a p.1)).takeWhile (fun p => withinUpper b p.1)

/-- The `TimeSeries` fields `read_losc_hdf5` constructs: samples, start
time, the sampling rate handed to the constructor, unit string, name. -/
structure TSeries where
  data : List ℚ
  epoch : ℚ
  sample_rate : ℚ
  unit : String
  name : String
deriving DecidableEq

/-- Modelled from the spec: the sample interval is derived from the
sampling rate attribute (spec section 3, Series). -/
def TSeries.dx (s : TSeries) : ℚ := 1 / s.sample_rate

/-- The samples of a plain series paired with their times. -/
def TSeries.pairs (s : TSeries) : List (ℚ × ℚ) := withTimes s.epoch s.dx s.data

/-- Modelled from the spec: `TimeSeries.crop(start, end)` (spec section
4.1; `none` bounds leave that side unrestricted). -/
def TSeries.crop (s : TSeries) (a b : Option ℚ) : TSeries :=
  let kept := cropPairs a b s.pairs
  { s with data := kept.map (fun p => p.2),
           epoch := match kept.head? with
                    | some p => p.1
                    | none => s.epoch }

/-- The `StateVector` fields `read_losc_hdf5_state` constructs: mask
samples, bit names by position, start time, name, sample interval as the
`Quantity` handed to the constructor. -/
structure SVSeries where
  data : List Nat
  bits : List String
  epoch : ℚ
  name : String
  dx : Quantity
deriving DecidableEq

/-- The seconds scale of the time-unit names this model uses. -/
def secFactorOf (u : String) : ℚ :=
  if u = "s" then 1
  else if u = "ms" then 1 / 1000
  else if u = "us" then 1 / 1000000
  else 1

/-- The mask samples of a flag series paired with their times. -/
def SVSeries.pairs (s : SVSeries) : List (ℚ × Nat) :=
  withTimes s.epoch (s.dx.val * secFactorOf s.dx.unit) s.data

/-- Modelled from the spec: `StateVector.crop(start, end)` (spec section
4.2, "Crop as in 4.1"). -/
def SVSeries.crop (s : SVSeries) (a b : Option ℚ) : SVSeries :=
  let kept := cropPairs a b s.pairs
  { s with data := kept.map (fun p => p.2),
           epoch := match kept.head? with
                    | some p => p.1
                    | none => s.epoch }

/-- `read_losc_hdf5(h5f, path, start, end)`: locate the dataset, read its
payload and the `Xunits`/`Xstart`/`Xspacing`/`Yunits` attributes, build a
`TimeSeries` with `sample_rate = (1/Quantity(Xspacing, xunit)).to('Hertz')`,
`unit = Yunits`, `name = path.rsplit('/', 1)[1]`, `epoch = Xstart`, and
crop it to `[start, end)`.  (The numeric-or-string checks stand for the
failures the `Quantity`/`TimeSeries` constructors would raise on a
wrongly-typed attribute.) -/
def read_losc_hdf5 (h5f : Container) (path : String) (start endt : Option ℚ) :
    Except Exc TSeries :=
  match findDataset h5f path with
  | Except.error e => Except.error e
  | Except.ok dataset =>
    match dataset.value with
    | H5Value.floats nddata =>
      match getAttr dataset "Xunits" with
      | Except.error e => Except.error e
      | Except.ok xu =>
        match parse_unit xu with
        | Except.error e => Except.error e
        | Except.ok xunit =>
          match getAttr dataset "Xstart" with
          | Except.error e => Except.error e
          | Except.ok (Attr.str _) => Except.error ⟨"TypeError", "Xstart is not numeric"⟩
          | Except.ok (Attr.num epoch) =>
            match getAttr dataset "Xspacing" with
            | Except.error e => Except.error e
            | Except.ok (Attr.str _) => Except.error ⟨"TypeError", "Xspacing is not numeric"⟩
            | Except.ok (Attr.num spacing) =>
              match getAttr dataset "Yunits" with
              | Except.error e => Except.error e
              | Except.ok (Attr.num _) => Except.error ⟨"TypeError", "Yunits is not a string"⟩
              | Except.ok (Attr.str unit) =>
                match rsplitLast path with
                | Except.error e => Except.error e
                | Except.ok name =>
                  Except.ok ((TSeries.mk nddata epoch
                    (1 / (spacing * xunit.secFactor)) unit name).crop start endt)
    | _ => Except.error ⟨"TypeError", "strain dataset is not a float array"⟩

/-- `read_losc_hdf5_state(f, path, start, end)`: locate `<path>/DQmask`
and `<path>/DQDescriptions`, read the mask and the decoded bit names,
read `Xstart`; read `Xspacing` under a `try`, falling back to
`Quantity(1, 's')` on `KeyError`, and otherwise read `Xunits` (whose own
`KeyError` is not caught) to build the spacing `Quantity`; construct the
`StateVector` with the fixed name `'Data quality'` and crop it. -/
def read_losc_hdf5_state (f : Container) (path : String) (start endt : Option ℚ) :
    Except Exc SVSeries :=
  match findDataset f (path ++ "/DQmask") with
  | Except.error e => Except.error e
  | Except.ok dataset =>
    match findDataset f (path ++ "/DQDescriptions") with
    | Except.error e => Except.error e
    | Except.ok maskset =>
      match dataset.value with
      | H5Value.ints nddata =>
        match maskset.value with
        | H5Value.strs bits =>
          match getAttr dataset "Xstart" with
          | Except.error e => Except.error e
          | Except.ok (Attr.str _) => Except.error ⟨"TypeError", "Xstart is not numeric"⟩
          | Except.ok (Attr.num epoch) =>
            match getAttr dataset "Xspacing" with
            | Except.error _ =>
                Except.ok ((SVSeries.mk nddata bits epoch "Data quality"
                  ⟨1, "s"⟩).crop start endt)
            | Except.ok (Attr.str _) => Except.error ⟨"TypeError", "Xspacing is not numeric"⟩
            | Except.ok (Attr.num spacing) =>
              match getAttr dataset "Xunits" with
              | Except.error e => Except.error e
              | Except.ok xu =>
                match parse_unit xu with
                | Except.error e => Except.error e
                | Except.ok xunit =>
                  Except.ok ((SVSeries.mk nddata bits epoch "Data quality"
                    ⟨spacing, xunit.name⟩).crop start endt)
        | _ => Except.error ⟨"TypeError", "DQDescriptions is not a string array"⟩
      | _ => Except.error ⟨"TypeError", "DQmask is not an integer array"⟩

end Losc

namespace Losc

/- ### Interval resolver and assembler (`fetch_losc_data`) -/

/-- The series the assembler accumulates, abstracted to what the loop
touches: a start time, a sample interval in seconds, and samples. -/
structure ASeries where
  epoch : ℚ
  dx : ℚ
  data : List ℚ
deriving DecidableEq

/-- The samples of an assembly piece paired with their times. -/
def ASeries.pairs (s : ASeries) : List (ℚ × ℚ) := withTimes s.epoch s.dx s.data

/-- Modelled from the spec: `.crop(*keep, copy=False)` with both bounds
given (spec section 4.4 step 6, "crop to keep"). -/
def ASeries.crop (s : ASeries) (a b : ℚ) : ASeries :=
  let kept := cropPairs (some a) (some b) s.pairs
  { s with data := kept.map (fun p => p.2),
           epoch := match kept.head? with
                    | some p => p.1
                    | none => s.epoch }

/-- Modelled from the spec: `.copy()` duplicates the backing storage so
later growth cannot alias caller-visible state; on this value model it is
the identity (spec section 4.4 step 6). -/
def ASeries.copy (s : ASeries) : ASeries := s

/-- Modelled from the spec: `out.append(new, resize=True)` extends the
running assembly with the new piece's samples in order, growing the
backing storage; the reference behaviour performs no contiguity check
(spec section 4.4 step 6 and section 9). -/
def ASeries.append (s t : ASeries) : ASeries := { s with data := s.data ++ t.data }

/-- One step of the accumulation in the read loop:
`if out is None: out = new.copy()  else: out.append(new, resize=True)`. -/
def accPiece (out : Option ASeries) (new : ASeries) : Option ASeries :=
  match out with
  | none => some new.copy
  | some o => some (o.append new)

/-- The event-dataset disambiguation (`fetch_losc_data` lines 132-138):
only when the FIRST candidate URL contains the substring `'events'` are
the candidates scanned, and the scan keeps the first one whose own
segment satisfies `a <= start and b >= end`. -/
def eventFilter (urls : List String) (start endt : ℚ)
    (fileSegment : String → Seg) : List String :=
  match urls with
  | [] => []
  | u0 :: _ =>
      if strContains u0 "events" then
        match urls.find? (fun v =>
            decide ((fileSegment v).l ≤ start) && decide (endt ≤ (fileSegment v).r)) with
        | some u => [u]
        | none => urls
      else urls

/-- The channel-name resolution (`fetch_losc_data` lines 139-148): when
the first candidate ends in `.gwf`, the positional args are the explicit
channel if given, else `"<detector>:LOSC-DQMASK"` for a `StateVector`
request and `"<detector>:LOSC-STRAIN"` otherwise; for any other first
candidate the positional args are empty. -/
def channelArgs (detector : String) (urls : List String)
    (channel : Option String) (isSV : Bool) : List String :=
  match urls with
  | [] => []
  | u0 :: _ =>
      if endsW u0 ".gwf" then
        match channel with
        | some c => [c]
        | none =>
            if isSV then [detector ++ ":LOSC-DQMASK"]
            else [detector ++ ":LOSC-STRAIN"]
      else []

/-- The verbose status line of `fetch_losc_data`, exactly as in the
source (note the invalid `!d` conversions). -/
def statusFormat : String :=
  "Fetched \x7b0!d\x7d URLs from \x7b1\x7d for [\x7b2!d\x7d .. \x7b3!d\x7d)"

/-- The scanner states for `str.format` validation: plain text, inside a
replacement field, just after a conversion, inside a format spec. -/
inductive FmtMode
  | text
  | field
  | conv
  | spec
deriving DecidableEq

/-- CPython `str.format` field validation: `'{{'`/`'}}'` are escapes; a
conversion introduced by `'!'` must be one of `s`, `r`, `a` and must be
followed by `':'` or `'}'`; anything else raises `ValueError` when the
string is formatted. -/
def scanFormat : FmtMode → List Char → Bool
  | FmtMode.text, [] => true
  | FmtMode.text, '{' :: '{' :: rest => scanFormat FmtMode.text rest
  | FmtMode.text, '}' :: '}' :: rest => scanFormat FmtMode.text rest
  | FmtMode.text, '{' :: rest => scanFormat FmtMode.field rest
  | FmtMode.text, '}' :: _ => false
  | FmtMode.text, _ :: rest => scanFormat FmtMode.text rest
  | FmtMode.field, [] => false
  | FmtMode.field, '}' :: rest => scanFormat FmtMode.text rest
  | FmtMode.field, '!' :: c :: rest =>
      (c == 's' || c == 'r' || c == 'a') && scanFormat FmtMode.conv rest
  | FmtMode.field, '!' :: [] => false
  | FmtMode.field, ':' :: rest => scanFormat FmtMode.spec rest
  | FmtMode.field, _ :: rest => scanFormat FmtMode.field rest
  | FmtMode.conv, '}' :: rest => scanFormat FmtMode.text rest
  | FmtMode.conv, ':' :: rest => scanFormat FmtMode.spec rest
  | FmtMode.conv, _ => false
  | FmtMode.spec, [] => false
  | FmtMode.spec, '}' :: rest => scanFormat FmtMode.text rest
  | FmtMode.spec, _ :: rest => scanFormat FmtMode.spec rest

/-- Whether formatting the string raises no `ValueError` for its
replacement fields. -/
def validFormat (s : String) : Bool := scanFormat FmtMode.text s.toList

/-- The read loop of `fetch_losc_data` (lines 151-162): for each URL
compute `keep = file_segment(url) & span`, fetch the file (the URL is
recorded as fetched on the attempt), crop the result to `keep`, and fold
it into the running assembly; a fetch failure aborts the whole loop. -/
def assembleLoop (span : Seg) (fileSegment : String → Seg)
    (fetchFile : String → List String → Except Exc ASeries) (args : List String) :
    List String → Option ASeries → List String →
    Except (Exc × List String) (Option ASeries × List String)
  | [], out, fetched => Except.ok (out, fetched)
  | url :: rest, out, fetched =>
      let keep := (fileSegment url).inter span
      match fetchFile url args with
      | Except.error e => Except.error (e, fetched ++ [url])
      | Except.ok s =>
          assembleLoop span fileSegment fetchFile args rest
            (accPiece out (s.crop keep.l keep.r)) (fetched ++ [url])

/-- What one `fetch_losc_data` call produces when it returns: the
assembled series (`None` only when the locator list was empty), the URLs
fetched in order, and the positional args handed to every fetch. -/
structure FetchOutcome where
  result : Option ASeries
  fetched : List String
  argsUsed : List String
deriving DecidableEq

/-- `fetch_losc_data(detector, start, end, cls, **kwargs)`.  The external
locator's URL list and the per-URL covering segment (`file_segment`,
derived from the filename convention, outside `src/`) are parameters, as
is the single-file fetch.  The verbose branch models the
`print("Fetched {0!d} URLs ...".format(...))` call: `cache[0]` would
raise `IndexError` on an empty list, and an invalid conversion in the
format string raises `ValueError` — in either case before any fetch.
Failures carry the list of URLs fetched before the failure. -/
def fetch_losc_data (detector : String) (start endt : ℚ) (isSV : Bool)
    (verbose : Bool) (channel : Option String) (urls : List String)
    (fileSegment : String → Seg)
    (fetchFile : String → List String → Except Exc ASeries) :
    Except (Exc × List String) FetchOutcome :=
  if verbose && urls.isEmpty then
    Except.error (⟨"IndexError", "list index out of range"⟩, [])
  else if verbose && !(validFormat statusFormat) then
    Except.error (⟨"ValueError", "Invalid conversion specifier"⟩, [])
  else
    match assembleLoop ⟨start, endt⟩ fileSegment fetchFile
        (channelArgs detector (eventFilter urls start endt fileSegment) channel isSV)
        (eventFilter urls start endt fileSegment) none [] with
    | Except.error p => Except.error p
    | Except.ok (out, fetched) =>
        Except.ok ⟨out, fetched,
          channelArgs detector (eventFilter urls start endt fileSegment) channel isSV⟩

/-- The URLs a call attempted to fetch, whether or not it succeeded. -/
def fetchedOf (r : Except (Exc × List String) FetchOutcome) : List String :=
  match r with
  | Except.ok o => o.fetched
  | Except.error p => p.2

/-- Spec-side assembly (spec section 4.4 step 6): the first cropped piece,
copied, becomes the initial result and every later piece is appended in
order; compared against the translated loop in the refinement theorem. -/
def assembleSpecFold : List ASeries → Option ASeries
  | [] => none
  | p :: ps => some (ps.foldl (fun acc q => acc.append q) p.copy)


end Losc

namespace Losc

/- ### Concrete instances used by counterexamples and witnesses -/

/-- C1 counterexample: segments for three candidates, the second (an
`events` URL) covering `[0, 8)`, the others covering `[0, 2)` and
`[2, 4)`. -/
def cexSeg1 : String → Seg := fun u =>
  if u == "losc/events/X-R1-0-8.hdf5" then ⟨0, 8⟩
  else if u == "X-R1-2-2.hdf5" then ⟨2, 4⟩
  else ⟨0, 2⟩

/-- C1 counterexample: the candidate list; only the second URL mentions
`events`. -/
def cexUrls1 : List String :=
  ["X-R1-0-2.hdf5", "losc/events/X-R1-0-8.hdf5", "X-R1-2-2.hdf5"]

/-- C1 counterexample: a fetch that always succeeds. -/
def cexFetch1 : String → List String → Except Exc ASeries :=
  fun _ _ => Except.ok ⟨0, 1, [5, 5, 5, 5, 5, 5, 5, 5]⟩

/-- C1 witness: segments for two `events` candidates; the second covers
`[0, 10)` and hence all of `[0, 4)`, the first only `[0, 2)`. -/
def witSeg1 : String → Seg := fun u =>
  if u == "losc/events/b.hdf5" then ⟨0, 10⟩ else ⟨0, 2⟩

/-- C1 witness: a fetch that always succeeds with a fixed piece. -/
def witFetch1 : String → List String → Except Exc ASeries :=
  fun _ _ => Except.ok ⟨0, 1, [1, 2]⟩

/-- C1 witness: the series `witFetch1` returns, as a function. -/
def witSf1 : String → ASeries := fun _ => ⟨0, 1, [1, 2]⟩

/-- C2 counterexample: the second candidate covers `[10, 14)`, disjoint
from the requested `[0, 4)`. -/
def cexSeg2 : String → Seg := fun u =>
  if u == "X-R2-10-4.hdf5" then ⟨10, 14⟩ else ⟨0, 4⟩

/-- C2 counterexample: the candidate list. -/
def cexUrls2 : List String := ["X-R2-0-4.hdf5", "X-R2-10-4.hdf5"]

/-- C2 counterexample: a fetch that always succeeds. -/
def cexFetch2 : String → List String → Except Exc ASeries :=
  fun _ _ => Except.ok ⟨0, 1, [5, 5, 5, 5]⟩

/-- C2 witness: two candidates covering `[0, 2)` and `[2, 4)`. -/
def witSeg2 : String → Seg := fun u =>
  if u == "X-W2-2-2.hdf5" then ⟨2, 4⟩ else ⟨0, 2⟩

/-- C2 witness: a fetch that always succeeds with an empty piece. -/
def witFetch2 : String → List String → Except Exc ASeries :=
  fun _ _ => Except.ok ⟨0, 1, []⟩

/-- C2 witness: the series `witFetch2` returns, as a function. -/
def witSf2 : String → ASeries := fun _ => ⟨0, 1, []⟩

/-- C5 counterexample: a fully well-formed strain dataset. -/
def cexDs5 : Dataset :=
  ⟨H5Value.floats [1, 2],
   [("Xunits", Attr.str "s"), ("Xstart", Attr.num 100),
    ("Xspacing", Attr.num 1), ("Yunits", Attr.str "strain")]⟩

/-- C5 counterexample: the dataset lives at the slash-free path
`"Strain"`. -/
def cexCont5 : Container := [("Strain", cexDs5)]

/-- The base `TimeSeries` `read_losc_hdf5` constructs before cropping,
from payload `v`, start `x0`, spacing `xs` in unit `u`, unit string `ys`
and dataset path `path`. -/
def baseSeries (v : List ℚ) (x0 xs : ℚ) (u : PhysUnit) (ys : String)
    (path : String) : TSeries :=
  ⟨v, x0, 1 / (xs * u.secFactor), ys, String.mk (basenameChars path.toList)⟩

/-- C5 witness: a well-formed strain dataset with four samples at 1 s
spacing. -/
def witDs5 : Dataset :=
  ⟨H5Value.floats [1, 2, 3, 4],
   [("Xunits", Attr.str "s"), ("Xstart", Attr.num 100),
    ("Xspacing", Attr.num 1), ("Yunits", Attr.str "strain")]⟩

/-- C5 witness: the container with the dataset at the default path. -/
def witCont5 : Container := [("strain/Strain", witDs5)]

/-- C6 witness: a container whose `DQmask` dataset is missing. -/
def c6NoMask : Container :=
  [("quality/simple/DQDescriptions", ⟨H5Value.strs ["A", "B"], []⟩)]

/-- C6 witness: a mask dataset carrying `Xstart` but no `Xspacing`. -/
def c6MaskNoSpacing : Dataset := ⟨H5Value.ints [3, 1], [("Xstart", Attr.num 100)]⟩

/-- C6 witness: a bit-name dataset. -/
def c6Desc : Dataset := ⟨H5Value.strs ["A", "B"], []⟩

/-- C6 witness: container with the spacing attribute absent. -/
def c6ContNoSpacing : Container :=
  [("quality/simple/DQmask", c6MaskNoSpacing),
   ("quality/simple/DQDescriptions", c6Desc)]

/-- C6 witness: a mask dataset with no `Xstart` at all. -/
def c6MaskNoStart : Dataset := ⟨H5Value.ints [3, 1], []⟩

/-- C6 witness: container with the start attribute absent. -/
def c6ContNoStart : Container :=
  [("quality/simple/DQmask", c6MaskNoStart),
   ("quality/simple/DQDescriptions", c6Desc)]

/-- C6 witness: a mask dataset with `Xstart` and `Xspacing` but no
`Xunits`. -/
def c6MaskNoXunits : Dataset :=
  ⟨H5Value.ints [3, 1], [("Xstart", Attr.num 100), ("Xspacing", Attr.num 1)]⟩

/-- C6 witness: container with the spacing present but its unit absent. -/
def c6ContNoXunits : Container :=
  [("quality/simple/DQmask", c6MaskNoXunits),
   ("quality/simple/DQDescriptions", c6Desc)]

/-- C10 witness: a complete flag container. -/
def c10Mask : Dataset := ⟨H5Value.ints [3, 1], [("Xstart", Attr.num 100)]⟩

/-- C10 witness: the bit-name dataset. -/
def c10Desc : Dataset :=
  ⟨H5Value.strs ["NO_CBC_HW_INJ", "NO_BURST_HW_INJ"], []⟩

/-- C10 witness: the container. -/
def c10Cont : Container :=
  [("quality/simple/DQmask", c10Mask), ("quality/simple/DQDescriptions", c10Desc)]

/-- C10 witness: the flag series the decoder returns on `c10Cont`. -/
def c10Series : SVSeries :=
  ⟨[3, 1], ["NO_CBC_HW_INJ", "NO_BURST_HW_INJ"], 100, "Data quality", ⟨1, "s"⟩⟩

end Losc

namespace Losc

/- ### Sanity examples: the embedding evaluates as the source does -/

example : fileExt "a/b/X-R1-0-4.hdf5.gz" = ".hdf5" := by decide
example : fileExt "a/b/X-R1-0-4.hdf5.gz.gz" = ".gz" := by decide
example : fileExt "a/b/X-R1-0-4.txt" = ".txt" := by decide
example : fileExt "a/.bashrc" = "" := by decide
example : parseBits "0:A 1:B" = some [(0, "A"), (1, "B")] := by decide
example : parseBits "1:" = some [(1, "")] := by decide
example : parseBits "oops" = none := by decide
example : parseBits "0:A oops" = none := by decide
example : strContains "losc/events/f.hdf5" "events" = true := by decide
example : strContains "losc/f.hdf5" "events" = false := by decide
example : rsplitLast "strain/Strain" = Except.ok "Strain" := by decide
example : (rsplitLast "Strain").isOk = false := by decide

example : validFormat statusFormat = false := by decide
example : validFormat "Fetched \x7b0\x7d URLs from \x7b1\x7d" = true := by decide
example : validFormat "Fetched \x7b0!r\x7d URLs" = true := by decide
example : validFormat "Fetched \x7b0:d\x7d URLs" = true := by decide

end Losc

namespace Losc

/- ### Crop lemmas: cropping restricts to the requested interval -/

/-- Every sample time in `withTimes e dx xs` is at least `e` when the
spacing is nonnegative. -/
lemma withTimes_time_ge {α : Type} (dx : ℚ) (hdx : 0 ≤ dx) :
    ∀ (xs : List α) (e : ℚ), ∀ p ∈ withTimes e dx xs, e ≤ p.1 := by
  intro xs
  induction xs with
  | nil => intro e p hp; simp [withTimes] at hp
  | cons x xs ih =>
      intro e p hp
      simp only [withTimes, List.mem_cons] at hp
      rcases hp with h | h
      · rw [h]
      · have := ih (e + dx) p h
        linarith

/-- Sample times are sorted (non-strictly) when the spacing is
nonnegative. -/
lemma pairwise_withTimes {α : Type} (dx : ℚ) (hdx : 0 ≤ dx) :
    ∀ (xs : List α) (e : ℚ),
      List.Pairwise (fun p q : ℚ × α => p.1 ≤ q.1) (withTimes e dx xs) := by
  intro xs
  induction xs with
  | nil => intro e; simp [withTimes]
  | cons x xs ih =>
      intro e
      rw [withTimes, List.pairwise_cons]
      refine ⟨fun p hp => ?_, ih (e + dx)⟩
      have := withTimes_time_ge dx hdx xs (e + dx) p hp
      simp only
      linarith

/-- On a list sorted by time, dropping the leading too-early samples is
the same as filtering all too-early samples out. -/
lemma dropWhile_below_eq_filter {α : Type} (a : Option ℚ) :
    ∀ ps : List (ℚ × α), List.Pairwise (fun p q : ℚ × α => p.1 ≤ q.1) ps →
      ps.dropWhile (fun p => belowLower a p.1) =
        ps.filter (fun p => !belowLower a p.1) := by
  intro ps
  induction ps with
  | nil => intro _; rfl
  | cons p ps ih =>
      intro hp
      rw [List.pairwise_cons] at hp
      rcases Bool.eq_false_or_eq_true (belowLower a p.1) with hb | hb
      · simp [List.dropWhile_cons, List.filter_cons, hb, ih hp.2]
      · have hall : ps.filter (fun q => !belowLower a q.1) = ps := by
          rw [List.filter_eq_self]
          intro q hq
          cases a with
          | none => simp [belowLower]
          | some av =>
              have h1 := hp.1 q hq
              simp only [belowLower, decide_eq_false_iff_not] at hb
              simp only [belowLower, Bool.not_eq_true', decide_eq_false_iff_not]
              intro hlt
              exact hb (by linarith)
        simp [List.dropWhile_cons, List.filter_cons, hb, hall]

/-- On a list sorted by time, taking the leading in-bound samples is the
same as filtering to the in-bound samples. -/
lemma takeWhile_within_eq_filter {α : Type} (b : Option ℚ) :
    ∀ ps : List (ℚ × α), List.Pairwise (fun p q : ℚ × α => p.1 ≤ q.1) ps →
      ps.takeWhile (fun p => withinUpper b p.1) =
        ps.filter (fun p => withinUpper b p.1) := by
  intro ps
  induction ps with
  | nil => intro _; rfl
  | cons p ps ih =>
      intro hp
      rw [List.pairwise_cons] at hp
      rcases Bool.eq_false_or_eq_true (withinUpper b p.1) with hb | hb
      · simp [List.takeWhile_cons, List.filter_cons, hb, ih hp.2]
      · have hall : ps.filter (fun q => withinUpper b q.1) = [] := by
          rw [List.filter_eq_nil_iff]
          intro q hq
          cases b with
          | none => simp [withinUpper] at hb
          | some bv =>
              have h1 := hp.1 q hq
              simp only [withinUpper, decide_eq_false_iff_not] at hb
              simp only [withinUpper, decide_eq_true_eq]
              intro hlt
              exact hb (by linarith)
        simp [List.takeWhile_cons, List.filter_cons, hb, hall]

/-- On a sorted list of timed samples, `cropPairs` is exactly the filter
to the samples inside the requested interval. -/
lemma cropPairs_eq_filter {α : Type} (a b : Option ℚ) (ps : List (ℚ × α))
    (h : List.Pairwise (fun p q : ℚ × α => p.1 ≤ q.1) ps) :
    cropPairs a b ps =
      ps.filter (fun p => !belowLower a p.1 && withinUpper b p.1) := by
  unfold cropPairs
  rw [dropWhile_below_eq_filter a ps h,
      takeWhile_within_eq_filter b _ (h.filter _), List.filter_filter]
  exact List.filter_congr (fun x _ => Bool.and_comm _ _)

end Losc

namespace Losc

/-- Taking a prefix of a timed sample list and re-deriving times from its
first sample's time reproduces the same list: the kept block is itself an
arithmetic time sequence starting where it starts. -/
lemma withTimes_map_takeWhile {α : Type} (dx : ℚ) (P : ℚ × α → Bool) :
    ∀ (xs : List α) (e : ℚ),
      withTimes e dx (((withTimes e dx xs).takeWhile P).map (fun p => p.2)) =
        (withTimes e dx xs).takeWhile P := by
  intro xs
  induction xs with
  | nil => intro e; rfl
  | cons x xs ih =>
      intro e
      rw [withTimes, List.takeWhile_cons]
      rcases Bool.eq_false_or_eq_true (P (e, x)) with hb | hb
      · simp only [hb, if_true]
        rw [List.map_cons, withTimes, ih (e + dx)]
      · simp only [hb, if_false]
        rfl

/-- Dropping a prefix of a timed sample list leaves a timed sample list:
the suffix is `withTimes` of some suffix of the data at some later
epoch. -/
lemma dropWhile_withTimes_shape {α : Type} (dx : ℚ) (P : ℚ × α → Bool) :
    ∀ (xs : List α) (e : ℚ), ∃ (ys : List α) (e2 : ℚ),
      (withTimes e dx xs).dropWhile P = withTimes e2 dx ys := by
  intro xs
  induction xs with
  | nil => intro e; exact ⟨[], e, rfl⟩
  | cons x xs ih =>
      intro e
      rw [withTimes, List.dropWhile_cons]
      rcases Bool.eq_false_or_eq_true (P (e, x)) with hb | hb
      · simp only [hb, if_true]
        exact ih (e + dx)
      · simp only [hb, if_false]
        exact ⟨x :: xs, e, rfl⟩

/-- The sample-and-time list of a cropped plain series is `cropPairs` of
the original's: the crop's epoch adjustment exactly restores the kept
block. -/
lemma TSeries.crop_pairs_eq (s : TSeries) (a b : Option ℚ) :
    (TSeries.crop s a b).pairs = cropPairs a b s.pairs := by
  obtain ⟨ys, e2, hdrop⟩ :=
    dropWhile_withTimes_shape s.dx (fun p => belowLower a p.1) s.data s.epoch
  have hkept : cropPairs a b s.pairs =
      (withTimes e2 s.dx ys).takeWhile (fun p => withinUpper b p.1) := by
    rw [cropPairs, TSeries.pairs, hdrop]
  have hrec := withTimes_map_takeWhile s.dx (fun p => withinUpper b p.1) ys e2
  cases hk : cropPairs a b s.pairs with
  | nil =>
      rw [TSeries.crop, TSeries.pairs]
      simp only [hk, List.map_nil, List.head?_nil]
      rfl
  | cons p ps =>
      have hhead : p.1 = e2 := by
        rw [hkept] at hk
        cases ys with
        | nil => simp [withTimes] at hk
        | cons y ys2 =>
            rw [withTimes, List.takeWhile_cons] at hk
            rcases Bool.eq_false_or_eq_true (withinUpper b (e2, y).1) with hb | hb
            · simp only [hb, if_true] at hk
              rw [List.cons.injEq] at hk
              rw [← hk.1]
            · simp only [hb, if_false] at hk
              exact absurd hk (by simp)
      rw [TSeries.crop, TSeries.pairs]
      simp only [hk, List.head?_cons]
      show withTimes p.1 s.dx ((p :: ps).map (fun p => p.2)) = p :: ps
      rw [hhead, ← hk, hkept, hrec]

end Losc

namespace Losc

/-- Cropping a plain series with nonnegative sample spacing keeps exactly
the samples whose times fall inside the requested bounds: the cropped
series' timed samples are the filter of the original's. -/
lemma TSeries.crop_pairs_filter (s : TSeries) (a b : Option ℚ)
    (hdx : 0 ≤ s.dx) :
    (TSeries.crop s a b).pairs =
      s.pairs.filter (fun p => !belowLower a p.1 && withinUpper b p.1) := by
  rw [TSeries.crop_pairs_eq,
      cropPairs_eq_filter a b s.pairs (pairwise_withTimes s.dx hdx s.data s.epoch)]

/- ### Assembler loop lemmas -/

/-- When every fetch succeeds, the read loop returns the fold of the
cropped pieces over the accumulator and records every URL as fetched, in
order. -/
lemma assembleLoop_all_ok (span : Seg) (fs : String → Seg)
    (ff : String → List String → Except Exc ASeries) (args : List String)
    (sf : String → ASeries) (h : ∀ u args2, ff u args2 = Except.ok (sf u)) :
    ∀ (urls : List String) (out : Option ASeries) (fetched : List String),
      assembleLoop span fs ff args urls out fetched =
        Except.ok
          (urls.foldl (fun acc u => accPiece acc
              ((sf u).crop ((fs u).inter span).l ((fs u).inter span).r)) out,
           fetched ++ urls) := by
  intro urls
  induction urls with
  | nil => intro out fetched; simp [assembleLoop]
  | cons u us ih =>
      intro out fetched
      rw [assembleLoop, h u args]
      show assembleLoop span fs ff args us
          (accPiece out ((sf u).crop ((fs u).inter span).l ((fs u).inter span).r))
          (fetched ++ [u]) = _
      rw [ih]
      simp

/-- Folding `accPiece` from a `some` accumulator is plain appending. -/
lemma foldl_accPiece_some :
    ∀ (ps : List ASeries) (p : ASeries),
      ps.foldl accPiece (some p) = some (ps.foldl ASeries.append p) := by
  intro ps
  induction ps with
  | nil => intro p; rfl
  | cons q qs ih => intro p; rw [List.foldl_cons, List.foldl_cons, accPiece, ih]

/-- Folding `accPiece` from the empty accumulator is exactly the
spec-side assembly: copy the first piece, append the rest in order. -/
lemma foldl_accPiece_none (ps : List ASeries) :
    ps.foldl accPiece none = assembleSpecFold ps := by
  cases ps with
  | nil => rfl
  | cons p ps =>
      rw [List.foldl_cons, assembleSpecFold]
      exact foldl_accPiece_some ps p.copy

end Losc


namespace Losc

/- ### Claim theorems -/

/-- C9: for every call to `fetch_losc_data` with `verbose=True` in which
the locator returns at least one URL, the call raises `ValueError` before
any file is fetched (the fetched list is empty), because the status line
is built with the invalid conversion `{0!d}` — the scanner rejects the
module's format string. -/
theorem fetch_losc_data_verbose_raises (detector : String) (start endt : ℚ)
    (isSV : Bool) (channel : Option String) (u0 : String) (rest : List String)
    (fileSegment : String → Seg)
    (ff : String → List String → Except Exc ASeries) :
    fetch_losc_data detector start endt isSV true channel (u0 :: rest)
        fileSegment ff =
      Except.error (⟨"ValueError", "Invalid conversion specifier"⟩, []) ∧
    validFormat statusFormat = false := by
  have hv : validFormat statusFormat = false := by decide
  refine ⟨?_, hv⟩
  unfold fetch_losc_data
  simp [hv]

/-- C3 (counterexample): on a gwf-decoded `StateVector` whose raw unit
string `"oops"` fails the bit parse, the fetch does not raise but leaves
the series exactly as decoded: the unit stays `"oops"` — it is NOT
cleared to dimensionless — and the bit table stays whatever the decoder
produced rather than being emptied. -/
theorem fetch_gwf_bits_fail_cex :
    parseBits "oops" = none ∧
    _fetch_losc_data_file "X-R3-0-4.gwf" none
        (fun _ => Except.ok ⟨true, "oops", [(5, "PRE")], [1]⟩) =
      Except.ok ⟨true, "oops", [(5, "PRE")], [1]⟩ ∧
    ("oops" : String) ≠ "" ∧ ([(5, "PRE")] : List (Int × String)) ≠ [] := by
  decide

/-- C3 (amended): for a binary-frame (.gwf) fetch whose decoded result is
a flag series, if parsing the whitespace-separated `<index>:<name>`
tokens of the raw unit string fails, the single-file fetch does not
raise: the partial parse is discarded and the series is returned
unchanged — its bit table and its unit are left exactly as the decoder
produced them (the unit is not cleared to dimensionless). -/
theorem fetch_gwf_bits_fail_tolerant (url : String) (fmt : Option String)
    (read : Option String → Except Exc RawSeries) (s : RawSeries)
    (hread : read (selectFormat url fmt) = Except.ok s)
    (hgwf : fileExt url = ".gwf") (hsv : s.isSV = true)
    (hfail : parseBits s.unit = none) :
    _fetch_losc_data_file url fmt read = Except.ok s := by
  unfold _fetch_losc_data_file
  rw [hread]
  simp [hgwf, hsv, hfail]

/-- C3 (witness): the tolerant branch at a concrete gwf URL and a
concrete malformed unit string. -/
theorem fetch_gwf_bits_fail_tolerant_witness :
    _fetch_losc_data_file "X-W3-0-4.gwf" none
        (fun _ => Except.ok ⟨true, "oops", [], [1]⟩) =
      Except.ok ⟨true, "oops", [], [1]⟩ :=
  fetch_gwf_bits_fail_tolerant "X-W3-0-4.gwf" none
    (fun _ => Except.ok ⟨true, "oops", [], [1]⟩) ⟨true, "oops", [], [1]⟩
    rfl (by decide) rfl (by decide)

/-- C4 (counterexample): the re-raised message is built from the template
`"Failed to read LOSC data from %r: %s"` — with the word LOSC and the URL
in repr quotes — not from `"Failed to read data from <url>: <message>"`
as the claim states. -/
theorem fetch_file_error_template_cex :
    _fetch_losc_data_file "url1.hdf5" none
        (fun _ => Except.error ⟨"OSError", "boom"⟩) =
      Except.error ⟨"OSError", "Failed to read LOSC data from 'url1.hdf5': boom"⟩ ∧
    "Failed to read LOSC data from 'url1.hdf5': boom" ≠
      "Failed to read data from url1.hdf5: boom" := by
  decide

/-- C4 (amended): when decoding a single file fails, the single-file
fetch re-raises the same exception kind with only the message augmented
to `"Failed to read LOSC data from '<url>': <message>"`; and a fetch
failure at a candidate aborts the read loop at once — the remaining
candidates are never fetched (no retry, no fallback). -/
theorem fetch_file_wraps_error (url : String) (fmt : Option String)
    (read : Option String → Except Exc RawSeries) (e : Exc)
    (hread : read (selectFormat url fmt) = Except.error e) :
    _fetch_losc_data_file url fmt read =
      Except.error
        ⟨e.kind, "Failed to read LOSC data from " ++ pyRepr url ++ ": " ++ e.msg⟩ ∧
    ∀ (span : Seg) (fs : String → Seg)
      (ff : String → List String → Except Exc ASeries)
      (args fetched rest : List String) (out : Option ASeries) (e2 : Exc),
      ff url args = Except.error e2 →
      assembleLoop span fs ff args (url :: rest) out fetched =
        Except.error (e2, fetched ++ [url]) := by
  constructor
  · unfold _fetch_losc_data_file
    rw [hread]
    rfl
  · intro span fs ff args fetched rest out e2 hff
    rw [assembleLoop, hff]

/-- C4 (witness): the wrap and the abort at concrete inputs. -/
theorem fetch_file_wraps_error_witness :
    _fetch_losc_data_file "u.hdf5" none
        (fun _ => Except.error ⟨"OSError", "boom"⟩) =
      Except.error
        ⟨"OSError",
         "Failed to read LOSC data from " ++ pyRepr "u.hdf5" ++ ": " ++ "boom"⟩ ∧
    assembleLoop ⟨0, 4⟩ (fun _ => ⟨0, 4⟩)
        (fun _ _ => Except.error ⟨"OSError", "x"⟩) [] ["u.hdf5", "v.hdf5"] none [] =
      Except.error (⟨"OSError", "x"⟩, [] ++ ["u.hdf5"]) := by
  have h := fetch_file_wraps_error "u.hdf5" none
    (fun _ => Except.error ⟨"OSError", "boom"⟩) ⟨"OSError", "boom"⟩ rfl
  exact ⟨h.1, h.2 ⟨0, 4⟩ (fun _ => ⟨0, 4⟩)
    (fun _ _ => Except.error ⟨"OSError", "x"⟩) [] [] ["v.hdf5"] none
    ⟨"OSError", "x"⟩ rfl⟩

end Losc

namespace Losc

/-- C7: in `fetch_losc_data`, if the first entry of the candidate list
ends in `.gwf` and no explicit channel was given, the positional channel
argument is `"<detector>:LOSC-DQMASK"` for a `StateVector` request and
`"<detector>:LOSC-STRAIN"` otherwise; for a non-frame first entry no
channel argument is passed; and a successful call hands exactly these
args to every fetch. -/
theorem fetch_losc_data_channel_name (detector : String) (u0 : String)
    (rest : List String) (channel : Option String) (isSV : Bool) :
    (endsW u0 ".gwf" = true → channel = none →
      channelArgs detector (u0 :: rest) channel isSV =
        [detector ++ (if isSV then ":LOSC-DQMASK" else ":LOSC-STRAIN")]) ∧
    (endsW u0 ".gwf" = false → channel = none →
      channelArgs detector (u0 :: rest) channel isSV = []) ∧
    (∀ (start endt : ℚ) (fileSegment : String → Seg)
       (ff : String → List String → Except Exc ASeries) (r : FetchOutcome),
      fetch_losc_data detector start endt isSV false channel (u0 :: rest)
          fileSegment ff = Except.ok r →
      r.argsUsed = channelArgs detector
        (eventFilter (u0 :: rest) start endt fileSegment) channel isSV) := by
  refine ⟨?_, ?_, ?_⟩
  · intro h1 h2
    subst h2
    unfold channelArgs
    simp only [h1, if_true]
    cases isSV <;> rfl
  · intro h1 h2
    subst h2
    unfold channelArgs
    simp [h1]
  · intro start endt fileSegment ff r hr
    unfold fetch_losc_data at hr
    rw [if_neg (by simp), if_neg (by simp)] at hr
    cases hc : assembleLoop ⟨start, endt⟩ fileSegment ff
        (channelArgs detector (eventFilter (u0 :: rest) start endt fileSegment)
          channel isSV)
        (eventFilter (u0 :: rest) start endt fileSegment) none [] with
    | error p =>
        rw [hc] at hr
        exact absurd hr (by simp)
    | ok q =>
        rw [hc] at hr
        injection hr with hq
        rw [← hq]

end Losc

namespace Losc

/-- C7 (witness): the synthesized channel names and the args pass-through
at concrete inputs. -/
theorem fetch_losc_data_channel_name_witness :
    channelArgs "L1" ["X-0-4.gwf"] none true =
      ["L1" ++ (if true then ":LOSC-DQMASK" else ":LOSC-STRAIN")] ∧
    channelArgs "L1" ["X-0-4.hdf5"] none true = [] ∧
    (⟨some ⟨0, 1, []⟩, ["X-0-4.gwf"], ["L1:LOSC-DQMASK"]⟩ : FetchOutcome).argsUsed =
      channelArgs "L1" (eventFilter ["X-0-4.gwf"] 0 4 (fun _ => ⟨0, 4⟩)) none true := by
  refine ⟨(fetch_losc_data_channel_name "L1" "X-0-4.gwf" [] none true).1
      (by decide) rfl,
    (fetch_losc_data_channel_name "L1" "X-0-4.hdf5" [] none true).2.1
      (by decide) rfl,
    (fetch_losc_data_channel_name "L1" "X-0-4.gwf" [] none true).2.2
      0 4 (fun _ => ⟨0, 4⟩) (fun _ _ => Except.ok ⟨0, 1, []⟩)
      ⟨some ⟨0, 1, []⟩, ["X-0-4.gwf"], ["L1:LOSC-DQMASK"]⟩ (by decide)⟩

/-- C8: decoder dispatch in the single-file fetch strips at most one
trailing `.gz` before taking the extension; `.hdf5` picks `hdf5.losc`,
which the registry resolves to the plain or flag decoder by target kind;
`.txt` picks the text-table reader and `.gwf` the frame reader; an
explicitly supplied format is never overridden. -/
theorem decoder_dispatch (url : String) (isSV : Bool) :
    (∀ f : String, selectFormat url (some f) = some f) ∧
    (endsW url ".gz" = true → fileExt url = splitextExt (dropRightChars url 3)) ∧
    (endsW url ".gz" = false → fileExt url = splitextExt url) ∧
    (fileExt url = ".hdf5" → selectFormat url none = some "hdf5.losc" ∧
      registryLookup "hdf5.losc" isSV =
        some (if isSV then Decoder.losc_hdf5_state else Decoder.losc_hdf5)) ∧
    (fileExt url = ".txt" → selectFormat url none = some "ascii.losc" ∧
      registryLookup "ascii.losc" isSV = some Decoder.ascii_losc) ∧
    (fileExt url = ".gwf" → selectFormat url none = some "gwf" ∧
      registryLookup "gwf" isSV = some Decoder.gwf_frame) := by
  refine ⟨fun f => rfl, ?_, ?_, ?_, ?_, ?_⟩
  · intro h
    unfold fileExt
    rw [if_pos h]
  · intro h
    unfold fileExt
    rw [if_neg (by simp [h])]
  · intro h
    exact ⟨by unfold selectFormat; simp [h], by unfold registryLookup; simp⟩
  · intro h
    exact ⟨by unfold selectFormat; simp [h], by unfold registryLookup; simp⟩
  · intro h
    exact ⟨by unfold selectFormat; simp [h], by unfold registryLookup; simp⟩

/-- C8 (witness): dispatch at concrete URLs of each format, compressed
and not. -/
theorem decoder_dispatch_witness :
    selectFormat "a/f.hdf5.gz" (some "custom") = some "custom" ∧
    fileExt "a/f.hdf5.gz" = splitextExt (dropRightChars "a/f.hdf5.gz" 3) ∧
    (selectFormat "a/f.hdf5.gz" none = some "hdf5.losc" ∧
      registryLookup "hdf5.losc" true =
        some (if true then Decoder.losc_hdf5_state else Decoder.losc_hdf5)) ∧
    (selectFormat "a/f.txt" none = some "ascii.losc" ∧
      registryLookup "ascii.losc" false = some Decoder.ascii_losc) ∧
    (selectFormat "a/f.gwf" none = some "gwf" ∧
      registryLookup "gwf" false = some Decoder.gwf_frame) := by
  refine ⟨(decoder_dispatch "a/f.hdf5.gz" true).1 "custom",
    (decoder_dispatch "a/f.hdf5.gz" true).2.1 (by decide),
    (decoder_dispatch "a/f.hdf5.gz" true).2.2.2.1 (by decide),
    (decoder_dispatch "a/f.txt" false).2.2.2.2.1 (by decide),
    (decoder_dispatch "a/f.gwf" false).2.2.2.2.2 (by decide)⟩

end Losc

namespace Losc

/-- Shared: with the verbose flag off and every fetch succeeding,
`fetch_losc_data` fetches exactly the event-filtered candidates in order,
crops each piece to its `file_segment ∩ [start, end)` share, and
assembles them spec-side (first piece copied, the rest appended). -/
lemma fetch_losc_data_ok_eq (detector : String) (start endt : ℚ)
    (isSV : Bool) (channel : Option String) (urls : List String)
    (fileSegment : String → Seg)
    (ff : String → List String → Except Exc ASeries)
    (sf : String → ASeries) (h : ∀ u args2, ff u args2 = Except.ok (sf u)) :
    fetch_losc_data detector start endt isSV false channel urls fileSegment ff =
      Except.ok
        ⟨assembleSpecFold ((eventFilter urls start endt fileSegment).map
            (fun u => (sf u).crop ((fileSegment u).inter ⟨start, endt⟩).l
              ((fileSegment u).inter ⟨start, endt⟩).r)),
         eventFilter urls start endt fileSegment,
         channelArgs detector (eventFilter urls start endt fileSegment)
           channel isSV⟩ := by
  have hfold : ∀ cache : List String,
      List.foldl (fun acc u => accPiece acc
          ((sf u).crop ((fileSegment u).inter ⟨start, endt⟩).l
            ((fileSegment u).inter ⟨start, endt⟩).r)) none cache =
        assembleSpecFold (cache.map
          (fun u => (sf u).crop ((fileSegment u).inter ⟨start, endt⟩).l
            ((fileSegment u).inter ⟨start, endt⟩).r)) := by
    intro cache
    rw [← foldl_accPiece_none, List.foldl_map]
  unfold fetch_losc_data
  rw [if_neg (by simp), if_neg (by simp),
      assembleLoop_all_ok ⟨start, endt⟩ fileSegment ff
        (channelArgs detector (eventFilter urls start endt fileSegment)
          channel isSV)
        sf h (eventFilter urls start endt fileSegment) none [], hfold]
  rfl

end Losc

namespace Losc

/-- C1 (counterexample): three candidates of which only the SECOND is an
`events` URL; it fully covers the requested `[0, 4)` while the others
only partially overlap — yet all three are fetched, because the code
tests only the FIRST candidate for the `events` marker.  (The claim
would keep just the fully-covering one.) -/
theorem fetch_losc_data_event_any_cex :
    strContains "losc/events/X-R1-0-8.hdf5" "events" = true ∧
    ((cexSeg1 "losc/events/X-R1-0-8.hdf5").l ≤ 0 ∧
      (4 : ℚ) ≤ (cexSeg1 "losc/events/X-R1-0-8.hdf5").r) ∧
    ¬((cexSeg1 "X-R1-0-2.hdf5").l ≤ 0 ∧ (4 : ℚ) ≤ (cexSeg1 "X-R1-0-2.hdf5").r) ∧
    ¬((cexSeg1 "X-R1-2-2.hdf5").l ≤ 0 ∧ (4 : ℚ) ≤ (cexSeg1 "X-R1-2-2.hdf5").r) ∧
    fetchedOf (fetch_losc_data "H1" 0 4 false false none cexUrls1 cexSeg1
      cexFetch1) = cexUrls1 ∧
    cexUrls1 ≠ ["losc/events/X-R1-0-8.hdf5"] := by
  decide

/-- C1 (amended): only when the FIRST candidate URL contains the
substring `events` are the candidates scanned in order, and if one
candidate's covering interval fully contains the requested interval, all
other candidates are discarded: exactly that first fully-covering
candidate is fetched. -/
theorem fetch_losc_data_event_first (detector : String) (start endt : ℚ)
    (isSV : Bool) (channel : Option String) (u0 : String) (urls : List String)
    (u : String) (fileSegment : String → Seg)
    (ff : String → List String → Except Exc ASeries) (sf : String → ASeries)
    (h0 : strContains u0 "events" = true)
    (hfind : (u0 :: urls).find? (fun v =>
        decide ((fileSegment v).l ≤ start) &&
          decide (endt ≤ (fileSegment v).r)) = some u)
    (hf : ∀ v args2, ff v args2 = Except.ok (sf v)) :
    fetchedOf (fetch_losc_data detector start endt isSV false channel
      (u0 :: urls) fileSegment ff) = [u] := by
  rw [fetch_losc_data_ok_eq detector start endt isSV channel (u0 :: urls)
    fileSegment ff sf hf]
  show eventFilter (u0 :: urls) start endt fileSegment = [u]
  unfold eventFilter
  simp [h0, hfind]

/-- C1 (witness): two `events` candidates; the second is the first one
fully covering `[0, 4)` and is the only one fetched. -/
theorem fetch_losc_data_event_first_witness :
    fetchedOf (fetch_losc_data "H1" 0 4 false false none
      ["losc/events/a.hdf5", "losc/events/b.hdf5"] witSeg1 witFetch1) =
      ["losc/events/b.hdf5"] :=
  fetch_losc_data_event_first "H1" 0 4 false none "losc/events/a.hdf5"
    ["losc/events/b.hdf5"] "losc/events/b.hdf5" witSeg1 witFetch1 witSf1
    (by decide) (by decide) (fun v args2 => rfl)

/-- C2 (counterexample): the second candidate's covering interval
`[10, 14)` has empty intersection with the requested `[0, 4)`, yet the
candidate is NOT skipped: the loop fetches it anyway (the claim says an
empty `keep` means no fetch). -/
theorem fetch_losc_data_no_skip_cex :
    Seg.isEmpty ((cexSeg2 "X-R2-10-4.hdf5").inter ⟨0, 4⟩) = true ∧
    fetchedOf (fetch_losc_data "H1" 0 4 false false none cexUrls2 cexSeg2
      cexFetch2) = cexUrls2 := by
  decide

/-- C2 (amended): for each candidate URL in order,
`keep = (candidate's covering interval) ∩ R` is computed and the file is
fetched unconditionally — there is no skip for an empty `keep` — then
decoded, cropped to `keep`, and appended: the first piece (copied)
becomes the initial result and every later piece is appended in time
order. -/
theorem fetch_losc_data_assembles (detector : String) (start endt : ℚ)
    (isSV : Bool) (channel : Option String) (urls : List String)
    (fileSegment : String → Seg)
    (ff : String → List String → Except Exc ASeries)
    (sf : String → ASeries) (h : ∀ u args2, ff u args2 = Except.ok (sf u)) :
    fetch_losc_data detector start endt isSV false channel urls fileSegment ff =
      Except.ok
        ⟨assembleSpecFold ((eventFilter urls start endt fileSegment).map
            (fun u => (sf u).crop ((fileSegment u).inter ⟨start, endt⟩).l
              ((fileSegment u).inter ⟨start, endt⟩).r)),
         eventFilter urls start endt fileSegment,
         channelArgs detector (eventFilter urls start endt fileSegment)
           channel isSV⟩ :=
  fetch_losc_data_ok_eq detector start endt isSV channel urls fileSegment ff sf h

/-- C2 (witness): the assembly equation at two concrete adjacent
candidates. -/
theorem fetch_losc_data_assembles_witness :
    fetch_losc_data "H1" 0 4 false false none
        ["X-W2-0-2.hdf5", "X-W2-2-2.hdf5"] witSeg2 witFetch2 =
      Except.ok
        ⟨assembleSpecFold ((eventFilter ["X-W2-0-2.hdf5", "X-W2-2-2.hdf5"]
              0 4 witSeg2).map
            (fun u => (witSf2 u).crop ((witSeg2 u).inter ⟨0, 4⟩).l
              ((witSeg2 u).inter ⟨0, 4⟩).r)),
         eventFilter ["X-W2-0-2.hdf5", "X-W2-2-2.hdf5"] 0 4 witSeg2,
         channelArgs "H1" (eventFilter ["X-W2-0-2.hdf5", "X-W2-2-2.hdf5"]
           0 4 witSeg2) none false⟩ :=
  fetch_losc_data_assembles "H1" 0 4 false none
    ["X-W2-0-2.hdf5", "X-W2-2-2.hdf5"] witSeg2 witFetch2 witSf2
    (fun _ _ => rfl)

end Losc

namespace Losc

/-- C10: whenever the flag-series decoder succeeds, the returned series'
name is the fixed string `"Data quality"`, regardless of the path
argument. -/
theorem read_losc_hdf5_state_fixed_name (f : Container) (path : String)
    (a b : Option ℚ) (s : SVSeries)
    (h : read_losc_hdf5_state f path a b = Except.ok s) :
    s.name = "Data quality" := by
  unfold read_losc_hdf5_state at h
  repeat' split at h
  all_goals
    first
      | exact Except.noConfusion h
      | (injection h with h2; rw [← h2]; rfl)

/-- C10 (witness): a successful decode at a concrete container, whose
result is named `"Data quality"`. -/
theorem read_losc_hdf5_state_fixed_name_witness :
    read_losc_hdf5_state c10Cont "quality/simple" none none =
      Except.ok c10Series ∧
    c10Series.name = "Data quality" :=
  ⟨by decide,
   read_losc_hdf5_state_fixed_name c10Cont "quality/simple" none none
     c10Series (by decide)⟩

/-- C6: the flag-series decoder fails when `<path>/DQmask` is missing
(the lookup's error propagates); a missing `Xspacing` attribute is
tolerated, falling back to a sample interval of `Quantity(1, 's')`; but a
missing `Xstart`, or a missing `Xunits` when `Xspacing` is present,
propagates as an error. -/
theorem read_losc_hdf5_state_attr_policy (f : Container) (path : String)
    (a b : Option ℚ) :
    (∀ em, findDataset f (path ++ "/DQmask") = Except.error em →
      read_losc_hdf5_state f path a b = Except.error em) ∧
    (∀ ds ms m names x0 e2,
      findDataset f (path ++ "/DQmask") = Except.ok ds →
      findDataset f (path ++ "/DQDescriptions") = Except.ok ms →
      ds.value = H5Value.ints m → ms.value = H5Value.strs names →
      getAttr ds "Xstart" = Except.ok (Attr.num x0) →
      getAttr ds "Xspacing" = Except.error e2 →
      read_losc_hdf5_state f path a b =
        Except.ok ((SVSeries.mk m names x0 "Data quality" ⟨1, "s"⟩).crop a b)) ∧
    (∀ ds ms m names e3,
      findDataset f (path ++ "/DQmask") = Except.ok ds →
      findDataset f (path ++ "/DQDescriptions") = Except.ok ms →
      ds.value = H5Value.ints m → ms.value = H5Value.strs names →
      getAttr ds "Xstart" = Except.error e3 →
      read_losc_hdf5_state f path a b = Except.error e3) ∧
    (∀ ds ms m names x0 q e4,
      findDataset f (path ++ "/DQmask") = Except.ok ds →
      findDataset f (path ++ "/DQDescriptions") = Except.ok ms →
      ds.value = H5Value.ints m → ms.value = H5Value.strs names →
      getAttr ds "Xstart" = Except.ok (Attr.num x0) →
      getAttr ds "Xspacing" = Except.ok (Attr.num q) →
      getAttr ds "Xunits" = Except.error e4 →
      read_losc_hdf5_state f path a b = Except.error e4) := by
  refine ⟨?_, ?_, ?_, ?_⟩
  · intro em h1
    unfold read_losc_hdf5_state
    rw [h1]
  · intro ds ms m names x0 e2 h1 h2 hv1 hv2 hx hs
    unfold read_losc_hdf5_state
    simp only [h1, h2, hv1, hv2, hx, hs]
  · intro ds ms m names e3 h1 h2 hv1 hv2 hx
    unfold read_losc_hdf5_state
    simp only [h1, h2, hv1, hv2, hx]
  · intro ds ms m names x0 q e4 h1 h2 hv1 hv2 hx hs hu
    unfold read_losc_hdf5_state
    simp only [h1, h2, hv1, hv2, hx, hs, hu]

/-- C6 (witness): the four attribute policies at concrete containers. -/
theorem read_losc_hdf5_state_attr_policy_witness :
    read_losc_hdf5_state c6NoMask "quality/simple" none none =
      Except.error ⟨"KeyError", "no such dataset: quality/simple/DQmask"⟩ ∧
    read_losc_hdf5_state c6ContNoSpacing "quality/simple" none none =
      Except.ok ((SVSeries.mk [3, 1] ["A", "B"] 100 "Data quality"
        ⟨1, "s"⟩).crop none none) ∧
    read_losc_hdf5_state c6ContNoStart "quality/simple" none none =
      Except.error ⟨"KeyError", "Xstart"⟩ ∧
    read_losc_hdf5_state c6ContNoXunits "quality/simple" none none =
      Except.error ⟨"KeyError", "Xunits"⟩ :=
  ⟨(read_losc_hdf5_state_attr_policy c6NoMask "quality/simple" none none).1
     ⟨"KeyError", "no such dataset: quality/simple/DQmask"⟩ (by decide),
   (read_losc_hdf5_state_attr_policy c6ContNoSpacing "quality/simple"
       none none).2.1
     c6MaskNoSpacing c6Desc [3, 1] ["A", "B"] 100 ⟨"KeyError", "Xspacing"⟩
     (by decide) (by decide) (by decide) (by decide) (by decide) (by decide),
   (read_losc_hdf5_state_attr_policy c6ContNoStart "quality/simple"
       none none).2.2.1
     c6MaskNoStart c6Desc [3, 1] ["A", "B"] ⟨"KeyError", "Xstart"⟩
     (by decide) (by decide) (by decide) (by decide) (by decide),
   (read_losc_hdf5_state_attr_policy c6ContNoXunits "quality/simple"
       none none).2.2.2
     c6MaskNoXunits c6Desc [3, 1] ["A", "B"] 100 1 ⟨"KeyError", "Xunits"⟩
     (by decide) (by decide) (by decide) (by decide) (by decide) (by decide)
     (by decide)⟩

end Losc

namespace Losc

/-- C5 (counterexample): on a fully well-formed dataset stored at the
slash-free path `"Strain"`, the plain-series decoder does not return a
series named `"Strain"` (the last path component): `rsplit('/', 1)[1]`
raises `IndexError` instead. -/
theorem read_losc_hdf5_no_slash_cex :
    findDataset cexCont5 "Strain" = Except.ok cexDs5 ∧
    getAttr cexDs5 "Xunits" = Except.ok (Attr.str "s") ∧
    getAttr cexDs5 "Xstart" = Except.ok (Attr.num 100) ∧
    getAttr cexDs5 "Xspacing" = Except.ok (Attr.num 1) ∧
    getAttr cexDs5 "Yunits" = Except.ok (Attr.str "strain") ∧
    read_losc_hdf5 cexCont5 "Strain" none none =
      Except.error ⟨"IndexError", "list index out of range"⟩ := by
  decide

/-- C5 (amended): given a container and a dataset path containing at
least one `'/'` (a slash-free path raises `IndexError`), the
plain-series decoder returns the crop of a series whose sample interval
is `Xspacing` expressed in `Xunits`, whose sampling rate is the
reciprocal of that interval, whose unit is `Yunits`, whose start time is
`Xstart`, and whose name is the part of the path after its last `'/'`;
the crop keeps exactly the samples inside the given bounds intersected
with the series' own interval. -/
theorem read_losc_hdf5_fields (f : Container) (path : String) (ds : Dataset)
    (v : List ℚ) (us ys : String) (u : PhysUnit) (x0 xs : ℚ) (a b : Option ℚ)
    (hds : findDataset f path = Except.ok ds)
    (hv : ds.value = H5Value.floats v)
    (hxu : getAttr ds "Xunits" = Except.ok (Attr.str us))
    (hpu : parse_unit (Attr.str us) = Except.ok u)
    (hx0 : getAttr ds "Xstart" = Except.ok (Attr.num x0))
    (hxs : getAttr ds "Xspacing" = Except.ok (Attr.num xs))
    (hyu : getAttr ds "Yunits" = Except.ok (Attr.str ys))
    (hslash : path.toList.contains '/' = true)
    (hdt : 0 < xs * u.secFactor) :
    read_losc_hdf5 f path a b =
      Except.ok ((baseSeries v x0 xs u ys path).crop a b) ∧
    (baseSeries v x0 xs u ys path).sample_rate = 1 / (xs * u.secFactor) ∧
    TSeries.dx (baseSeries v x0 xs u ys path) = xs * u.secFactor ∧
    (baseSeries v x0 xs u ys path).epoch = x0 ∧
    (baseSeries v x0 xs u ys path).unit = ys ∧
    (baseSeries v x0 xs u ys path).name = String.mk (basenameChars path.toList) ∧
    TSeries.pairs ((baseSeries v x0 xs u ys path).crop a b) =
      (TSeries.pairs (baseSeries v x0 xs u ys path)).filter
        (fun p => !belowLower a p.1 && withinUpper b p.1) := by
  have hname : rsplitLast path =
      Except.ok (String.mk (basenameChars path.toList)) := by
    unfold rsplitLast
    rw [if_pos hslash]
  have hdx : TSeries.dx (baseSeries v x0 xs u ys path) = xs * u.secFactor := by
    show 1 / (1 / (xs * u.secFactor)) = xs * u.secFactor
    rw [one_div_one_div]
  refine ⟨?_, rfl, hdx, rfl, rfl, rfl, ?_⟩
  · unfold read_losc_hdf5
    simp only [hds, hv, hxu, hpu, hx0, hxs, hyu, hname]
    rfl
  · exact TSeries.crop_pairs_filter (baseSeries v x0 xs u ys path) a b
      (by rw [hdx]; exact le_of_lt hdt)

/-- C5 (witness): the field equation at a concrete strain container. -/
theorem read_losc_hdf5_fields_witness :
    read_losc_hdf5 witCont5 "strain/Strain" (some 100) (some 102) =
      Except.ok ((baseSeries [1, 2, 3, 4] 100 1 ⟨"s", 1⟩ "strain"
        "strain/Strain").crop (some 100) (some 102)) :=
  (read_losc_hdf5_fields witCont5 "strain/Strain" witDs5 [1, 2, 3, 4]
    "s" "strain" ⟨"s", 1⟩ 100 1 (some 100) (some 102)
    (by decide) (by decide) (by decide) (by decide) (by decide) (by decide)
    (by decide) (by decide) (by simp)).1

end Losc
